import Mathlib

/-!
# Verification of the py_executer environment-resolution and execution core

Shallow embedding, in Lean 4, of the Rust sources of the `py_executer`
repository: the process supervisor's exit mapping (`src/lib/cmd.rs`,
`src/uv.rs`, `src/python.rs`), the output relay (`src/lib/cmd.rs`),
the environment-directory resolver (`src/lib/path.rs`, `src/lib/uv.rs`),
the dependency installer (`src/main.rs`, `src/python.rs`), the
environment-variable composer (`src/lib/py_executer_lib.rs`,
`src/lib/utils.rs`) and the cleanup loop (`src/main.rs`, `src/python.rs`).

Conventions of the embedding:
* Rust `String`s are `List Char` (`Str` below); byte positions of the
  ASCII character `=` coincide with character positions, so splitting a
  `List Char` at the first `'='` is faithful to `str::find('=')` plus
  byte slicing.
* Filesystem paths are lists of components (`FsPath`), and a filesystem
  snapshot is a decidable existence predicate `FS := FsPath → Bool`.
  `PathBuf::join` is `++ [component]`.  The build is modelled for the
  non-Windows `cfg`, where the venv executable lives at `bin/python`
  (the Windows `Scripts/python.exe` variant is symmetric).
* External subprocesses (`uv init`, `uv venv`, `uv add`, installs) are
  modelled as parameters that transform the filesystem and may fail
  (`FS → FsPath → Option FS`); the code under verification never inspects
  more of their behaviour than success/failure and the resulting
  filesystem.
* Terminal output is modelled as a list of `Out` events where a claim
  depends on what is printed; print statements irrelevant to every
  claim are omitted from the corresponding definitions.
-/

/-- A Rust `String`, as a list of characters. -/
abbrev Str := List Char

/-- A filesystem path, as a list of components (`PathBuf::join` is list append). -/
abbrev FsPath := List String

/-- A snapshot of the filesystem: which paths exist. -/
abbrev FS := FsPath → Bool

/-- `std::process::ExitCode` values produced by the program
(`ExitCode::SUCCESS` / `ExitCode::FAILURE`, and `process::exit(1)` is
also a failure outcome). -/
inductive ExitOutcome where
  | success
  | failure
deriving DecidableEq, Repr

/-- The result of `child.wait()` as observed by the code: `some code`
when a status with exit code `code` was obtained (`status.success()`
is `code = 0`), `none` when the wait itself failed. -/
abbrev WaitResult := Option Nat

/-- Exit mapping of `stream_output` in `src/lib/cmd.rs` (lines 42‑54)
and `src/main.rs` (lines 75‑87): `Ok` status with `success()` →
`ExitCode::SUCCESS`; `Ok` non-success or `Err` → `ExitCode::FAILURE`. -/
def streamOutputOutcome (w : WaitResult) : ExitOutcome :=
  match w with
  | some code => if code = 0 then .success else .failure
  | none => .failure

/-- Exit mapping at the end of `python` in `src/python.rs` (lines
223‑235): identical to `stream_output`'s. -/
def pythonOutcome (w : WaitResult) : ExitOutcome :=
  match w with
  | some code => if code = 0 then .success else .failure
  | none => .failure

/-- Exit mapping of `uv` in `src/uv.rs` (lines 25‑37): on `Ok`, a
successful child status yields `ExitCode::FAILURE` and a non-successful
one yields `ExitCode::SUCCESS`; on `Err` the process exits with code 1
(a failure outcome). -/
def uvOutcome (w : WaitResult) : ExitOutcome :=
  match w with
  | some code => if code = 0 then .failure else .success
  | none => .failure

/-- One `lines()` iterator item in the relay threads of
`stream_output`: `Ok(line)` or an I/O / invalid-UTF-8 error with its
message. -/
inductive ReadResult where
  | ok (line : Str)
  | err (msg : Str)
deriving DecidableEq, Repr

/-- A terminal-output event of the program. -/
inductive Out where
  /-- A plain line on the parent's standard output (`println!`). -/
  | stdoutLine (line : Str)
  /-- A red-marked line on the parent's standard error (`eprintln!` with `.red()`). -/
  | stderrRed (line : Str)
  /-- `Setting env: k = v` informational print of the composer. -/
  | settingEnv (key value : Str)
  /-- `warning_println!` of a malformed `KEY=VALUE` override. -/
  | warnMalformed (s : Str)
  /-- `warning_println!("No pyproject.toml or requirements.txt found, ...")`. -/
  | warnNoDeps
  /-- `error_println!("Failed to ... requirements/sync ...")` before aborting an install. -/
  | errInstall
deriving DecidableEq, Repr

/-- The stdout relay thread of `stream_output` (`src/lib/cmd.rs` lines
26‑32): `for line in stdout_lines { if let Ok(line) = line {
println!("{}", line); } }` — each `Ok` line is printed, each `Err`
item produces nothing and the loop continues. -/
def streamStdout (rs : List ReadResult) : List Out :=
  rs.filterMap fun r =>
    match r with
    | .ok line => some (Out.stdoutLine line)
    | .err _ => none

/-- The stderr relay thread of `stream_output` (`src/lib/cmd.rs` lines
33‑39): each `Ok` line is printed red to stderr, each `Err` item
produces nothing and the loop continues. -/
def streamStderr (rs : List ReadResult) : List Out :=
  rs.filterMap fun r =>
    match r with
    | .ok line => some (Out.stderrRed line)
    | .err _ => none

/-- Rust `str::contains(&needle)`: does `hay` contain `needle` as a
contiguous substring?  Decided through `List.IsInfix`. -/
def strContains (hay needle : Str) : Bool :=
  decide (needle <:+: hay)

/-- The key `"PYTHONPATH"`. -/
def pythonpathKey : Str := ['P', 'Y', 'T', 'H', 'O', 'N', 'P', 'A', 'T', 'H']

/-- An environment-variable mapping (model of the `HashMap<String,
String>` values built by the composer), as an association list. -/
abbrev EnvMap := List (Str × Str)

/-- `append_pwd_to_pythonpath` (`src/lib/py_executer_lib.rs` lines
17‑35 and `src/lib/utils.rs` lines 7‑25), abstracted over the two
observations it makes of `current_dir` — whether it exists
(`dirExists`) and its rendered string (`dirStr`) — and over the
inherited `PYTHONPATH` value `pythonpath` (`""` when unset, per
`unwrap_or_default`).  If the directory does not exist the function
returns an empty map (after an error print); if `pythonpath` already
contains `dirStr` as a substring it returns an empty map; otherwise it
returns a singleton map binding `PYTHONPATH` to `pythonpath`, extended
with a `':'` separator when non-empty, followed by `dirStr`. -/
def append_pwd_to_pythonpath (dirExists : Bool) (dirStr : Str) (pythonpath : Str) : EnvMap :=
  if dirExists = false then
    []
  else if strContains pythonpath dirStr then
    []
  else
    [(pythonpathKey, if pythonpath = [] then dirStr else pythonpath ++ ':' :: dirStr)]

/-- The value of the `PYTHONPATH`-equivalent variable after one
application of the path-injection step: the value bound by the
returned map, or the old value when the map binds nothing. -/
def pythonpathAfterStep (dirExists : Bool) (dirStr : Str) (pythonpath : Str) : Str :=
  ((append_pwd_to_pythonpath dirExists dirStr pythonpath).lookup pythonpathKey).getD pythonpath

/-- `get_python_exec_path` (`src/lib/py_executer_lib.rs` lines
148‑162), non-Windows branch: the Python executable of a venv lives at
`<venv>/bin/python`. -/
def get_python_exec_path (venvPath : FsPath) : FsPath :=
  venvPath ++ ["bin", "python"]

/-- `validate_venv` (`src/lib/path.rs` lines 51‑65, also inlined as
`validate_venv` in `src/main.rs` lines 90‑104): `Err` (modelled
`none`) when the venv path does not exist or the Python executable
under it does not exist, `Ok(venv_path)` otherwise. -/
def validate_venv (fs : FS) (venvPath : FsPath) : Option FsPath :=
  if fs venvPath = false then
    none
  else if fs (get_python_exec_path venvPath) = false then
    none
  else
    some venvPath

/-- `get_venv_path` (`src/lib/path.rs` lines 93‑146; the same logic is
inlined in `src/main.rs` lines 172‑213).  First the supplied `venv` is
validated; on success it is returned unchanged.  Otherwise the
conventional names `venv` and `.venv` are tried under `runtime_path`,
first existing one wins.  Otherwise a fresh venv is provisioned at
`runtime_path/.venv` (the provisioning subprocess — `uv venv` or
`python venv` depending on availability — is an external effect whose
outcome the code never checks) and, when `clean` is set, that path is
pushed onto `files_to_clean`.  The model returns the chosen path
together with the final `files_to_clean`; the `uv_path` /
`python_native_path` strings only select the provisioning command and
`quiet` only gates warning prints, none of which affect either
component. -/
def get_venv_path (fs : FS) (venv runtimePath : FsPath) (clean : Bool)
    (filesToClean : List FsPath) : FsPath × List FsPath :=
  match validate_venv fs venv with
  | some v => (v, filesToClean)
  | none =>
    let candidates := [runtimePath ++ ["venv"], runtimePath ++ [".venv"]]
    match candidates.find? (fun p => fs p) with
    | some p => (p, filesToClean)
    | none =>
      let newVenvPath := runtimePath ++ [".venv"]
      (newVenvPath, if clean then filesToClean ++ [newVenvPath] else filesToClean)

/-- Split a string at its first `'='`: `some (key, value)` with `key`
the text before and `value` the text after (further `'='` characters
stay in `value`), `none` when the string has no `'='`.  This is
`env_var.find('=')` followed by the two slices `env_var[..pos]` and
`env_var[pos + 1..]` in `set_additional_env_var`. -/
def splitAtFirstEq : Str → Option (Str × Str)
  | [] => none
  | c :: rest =>
    if c = '=' then
      some ([], rest)
    else
      (splitAtFirstEq rest).map fun kv => (c :: kv.1, kv.2)

/-- `HashMap::insert`: bind `key` to `value`, replacing any previous
binding of `key` and leaving all other keys unchanged. -/
def insertEnv (m : EnvMap) (key value : Str) : EnvMap :=
  (key, value) :: m.filter fun kv => decide (kv.1 ≠ key)

/-- The body of the `for env_var in additional_env_from_args` loop in
`set_additional_env_var` (`src/lib/py_executer_lib.rs` lines 56‑72):
one override string applied to the accumulated map.  A string with an
`'='` is split at the first `'='` and inserted (with an informational
print unless `quiet`); a string without `'='` is dropped with a
warning print unless `quiet`. -/
def processOverride (quiet : Bool) (m : EnvMap) (envVar : Str) : EnvMap × List Out :=
  match splitAtFirstEq envVar with
  | some kv =>
    (insertEnv m kv.1 kv.2, if quiet then [] else [Out.settingEnv kv.1 kv.2])
  | none =>
    (m, if quiet then [] else [Out.warnMalformed envVar])

/-- `set_additional_env_var` (`src/lib/py_executer_lib.rs` lines
46‑74): start from the map produced by `append_pwd_to_pythonpath` for
the current directory, then fold every override string through the
loop body, collecting the prints.  (`src/lib/utils.rs` lines 28‑54 is
the same function except that its malformed-override warning is not
gated on `quiet`.) -/
def set_additional_env_var (dirExists : Bool) (dirStr : Str) (inheritedPythonpath : Str)
    (overrides : List Str) (quiet : Bool) : EnvMap × List Out :=
  overrides.foldl
    (fun acc envVar =>
      let step := processOverride quiet acc.1 envVar
      (step.1, acc.2 ++ step.2))
    (append_pwd_to_pythonpath dirExists dirStr inheritedPythonpath, [])

/-- Behaviour of one external tool invocation that may change the
filesystem: given the pre-state and the path argument, `some fs'`
models a successful exit leaving filesystem `fs'`, `none` a failed
exit (non-zero status, or the recovery in `prepare_uv_project` not
applying). -/
abbrev ToolRun := FS → FsPath → Option FS

/-- `use_uv_venv` (`src/lib/uv.rs` lines 131‑166), over abstract tool
behaviours: `uvInit` for `prepare_uv_project` (`uv init --bare`,
including its "already initialized" recovery), `uvVenv` for
`prepare_venv` (`uv venv`), `uvAdd` for the `uv add` call inside
`install_requirements` (whose requirements-missing branch is a
successful no-op).  The `?` operator is `Option.bind`; on success the
function returns the venv path, the final `files_to_clean` and the
final filesystem.  When `clean` is set, each of `.venv`,
`pyproject.toml` and `uv.lock` is pushed onto `files_to_clean` if it
does not exist **at that point**, i.e. in the filesystem as left by
the provisioning steps just run. -/
def use_uv_venv (uvInit uvVenv uvAdd : ToolRun) (fs : FS) (currentDir : FsPath)
    (clean : Bool) (filesToClean : List FsPath) :
    Option (FsPath × List FsPath × FS) :=
  (uvInit fs currentDir).bind fun fs1 =>
    let venvPath := currentDir ++ [".venv"]
    (if fs1 venvPath then some fs1 else uvVenv fs1 venvPath).bind fun fs2 =>
      (if fs2 (currentDir ++ ["requirements.txt"]) = false then some fs2
       else uvAdd fs2 venvPath).bind fun fs3 =>
        let files1 :=
          if clean then
            let f1 := if fs3 venvPath = false then filesToClean ++ [venvPath] else filesToClean
            let f2 := if fs3 (currentDir ++ ["pyproject.toml"]) = false
                      then f1 ++ [currentDir ++ ["pyproject.toml"]] else f1
            if fs3 (currentDir ++ ["uv.lock"]) = false
            then f2 ++ [currentDir ++ ["uv.lock"]] else f2
          else filesToClean
        some (venvPath, files1, fs3)

/-- `venv` (`src/lib/uv.rs` lines 168‑226), over the same abstract
tool behaviours plus `canon`, the partial `Path::canonicalize`
operation of the host.  If the argument path does not exist: when it
is the default `".venv"` and `<current_dir>/venv` exists, that
alternate directory is returned with an empty manifest; otherwise
`use_uv_venv` provisions one.  If the argument path exists, its
canonicalised form is returned with an empty manifest (`Err` of
`canonicalize` aborts, modelled `none`).  Warning prints are omitted:
none of them affect the result. -/
def venvResolve (uvInit uvVenv uvAdd : ToolRun) (canon : FsPath → Option FsPath)
    (fs : FS) (currentDir venvPathFromArg : FsPath) (clean : Bool) :
    Option (FsPath × List FsPath) :=
  if fs venvPathFromArg = false then
    if venvPathFromArg = [".venv"] ∧ fs (currentDir ++ ["venv"]) = true then
      some (currentDir ++ ["venv"], [])
    else
      (use_uv_venv uvInit uvVenv uvAdd fs currentDir clean []).map fun r => (r.1, r.2.1)
  else
    (canon venvPathFromArg).map fun a => (a, [])

/-- An install subprocess spawned by the dependency-preparation block. -/
inductive InstallCmd where
  /-- `uv sync` (with `--project` in the `src/python.rs` variant). -/
  | uvSync
  /-- `uv pip install -r requirements.txt`. -/
  | uvPipInstall
  /-- `<venv python> -m pip install -r requirements.txt`. -/
  | pipInstall
deriving DecidableEq, Repr

/-- The dependency-preparation block of `src/main.rs` (lines 217‑278),
over `ok`, the exit status of each install subprocess.  Returns the
commands spawned in order, the error prints, and whether the run
continues (`false` models the `process::exit(1)` after a failed
install).  With uv available: if neither `pyproject.toml` nor
`requirements.txt` exists, nothing is spawned and nothing is printed;
otherwise `uv sync` runs when `pyproject.toml` exists and then `uv pip
install` when `requirements.txt` exists, each aborting on failure.
Without uv, only `requirements.txt` triggers `python -m pip install`. -/
def mainPrepareDeps (ok : InstallCmd → Bool) (uvAvailable : Bool) (fs : FS)
    (runtimePath : FsPath) : List InstallCmd × List Out × Bool :=
  if uvAvailable then
    if fs (runtimePath ++ ["pyproject.toml"]) = false ∧
        fs (runtimePath ++ ["requirements.txt"]) = false then
      ([], [], true)
    else
      let (cmds1, outs1, cont1) :=
        if fs (runtimePath ++ ["pyproject.toml"]) then
          if ok .uvSync then ([InstallCmd.uvSync], [], true)
          else ([InstallCmd.uvSync], [Out.errInstall], false)
        else ([], [], true)
      if cont1 = false then (cmds1, outs1, false)
      else if fs (runtimePath ++ ["requirements.txt"]) then
        if ok .uvPipInstall then (cmds1 ++ [InstallCmd.uvPipInstall], outs1, true)
        else (cmds1 ++ [InstallCmd.uvPipInstall], outs1 ++ [Out.errInstall], false)
      else (cmds1, outs1, true)
  else
    if fs (runtimePath ++ ["requirements.txt"]) then
      if ok .pipInstall then ([InstallCmd.pipInstall], [], true)
      else ([InstallCmd.pipInstall], [Out.errInstall], false)
    else ([], [], true)

/-- The dependency-preparation block of `src/python.rs` (lines
76‑148): identical to `mainPrepareDeps` except that when uv is
available and neither `pyproject.toml` nor `requirements.txt` exists,
`warning_println!("No pyproject.toml or requirements.txt found, will
not prepare dependencies")` is printed — unconditionally, the print is
not gated on `quiet`. -/
def pythonPrepareDeps (ok : InstallCmd → Bool) (uvAvailable : Bool) (fs : FS)
    (runtimePath : FsPath) : List InstallCmd × List Out × Bool :=
  if uvAvailable then
    if fs (runtimePath ++ ["pyproject.toml"]) = false ∧
        fs (runtimePath ++ ["requirements.txt"]) = false then
      ([], [Out.warnNoDeps], true)
    else
      let (cmds1, outs1, cont1) :=
        if fs (runtimePath ++ ["pyproject.toml"]) then
          if ok .uvSync then ([InstallCmd.uvSync], [], true)
          else ([InstallCmd.uvSync], [Out.errInstall], false)
        else ([], [], true)
      if cont1 = false then (cmds1, outs1, false)
      else if fs (runtimePath ++ ["requirements.txt"]) then
        if ok .uvPipInstall then (cmds1 ++ [InstallCmd.uvPipInstall], outs1, true)
        else (cmds1 ++ [InstallCmd.uvPipInstall], outs1 ++ [Out.errInstall], false)
      else (cmds1, outs1, true)
  else
    if fs (runtimePath ++ ["requirements.txt"]) then
      if ok .pipInstall then ([InstallCmd.pipInstall], [], true)
      else ([InstallCmd.pipInstall], [Out.errInstall], false)
    else ([], [], true)

/-- One iteration of the cleanup loop (`src/main.rs` lines 315‑325 and
`src/python.rs` lines 210‑220), over `isDir`, which tells which
existing paths are directories.  `path.is_dir()` (true only for an
existing directory) selects `remove_dir_all`, which removes the whole
subtree; otherwise `remove_file` is attempted, which succeeds only on
an existing non-directory.  The returned flag is whether the removal
succeeded; the code ignores it (`if let Err(_) = ... { (); }`). -/
def removePath (isDir : FsPath → Bool) (fs : FS) (p : FsPath) : FS × Bool :=
  if fs p && isDir p then
    (fun q => fs q && !(decide (p <+: q)), true)
  else if fs p && !isDir p then
    (fun q => fs q && !(decide (q = p)), true)
  else
    (fs, false)

/-- The whole cleanup loop: each path of `files_to_clean` is removed
in order; a failed removal produces no output and does not stop the
loop.  Returns the final filesystem and everything printed by the
loop — which is nothing, on every path. -/
def cleanupPaths (isDir : FsPath → Bool) (fs : FS) (paths : List FsPath) : FS × List Out :=
  paths.foldl (fun st p => ((removePath isDir st.1 p).1, st.2)) (fs, [])

/-- The tail of `main` (`src/main.rs` lines 312‑327): the outcome
`result` is computed from the child by `stream_output`, then, when
`clean` is set, the cleanup loop runs, and `result` is returned.  The
model returns the program's exit outcome, the final filesystem and the
output printed after the child exited. -/
def finishRun (isDir : FsPath → Bool) (result : ExitOutcome) (clean : Bool)
    (fs : FS) (filesToClean : List FsPath) : ExitOutcome × FS × List Out :=
  if clean then
    let (fs', outs) := cleanupPaths isDir fs filesToClean
    (result, fs', outs)
  else
    (result, fs, [])

/-- The filesystem used in concrete counterexamples and witnesses:
nothing exists. -/
def demoFs0 : FS := fun _ => false

/-- Add a single existing path to a filesystem snapshot. -/
def addPath (p : FsPath) (fs : FS) : FS :=
  fun q => fs q || decide (q = p)

/-- Concrete `uv init --bare` behaviour: succeeds, creating
`pyproject.toml` under the project directory. -/
def demoUvInit : ToolRun := fun fs d => some (addPath (d ++ ["pyproject.toml"]) fs)

/-- Concrete `uv venv` behaviour: succeeds, creating the venv
directory it was asked for. -/
def demoUvVenv : ToolRun := fun fs p => some (addPath p fs)

/-- Concrete `uv add` behaviour: succeeds without changing the
filesystem (not reached in the scenarios below, where
`requirements.txt` is absent). -/
def demoUvAdd : ToolRun := fun fs _ => some fs

/-- Counterexample filesystem for the resolver invariant: the
discovered directory `rt/venv` exists but nothing else does — in
particular its Python executable `rt/venv/bin/python` does not. -/
def fsDiscoveredBroken : FS := fun p => decide (p = ["rt", "venv"])

/-- Filesystem with one valid venv `v` (the directory and its
`bin/python` both exist). -/
def fsValidVenv : FS := fun p => decide (p = ["v"] ∨ p = ["v", "bin", "python"])

/-- C1: against the claim that every run maps a child exit code of 0
to the success outcome and anything else to the failure outcome, the
`uv` entry point of `src/uv.rs` inverts the mapping — a child exiting
0 yields `ExitCode::FAILURE` and a child exiting 1 yields
`ExitCode::SUCCESS` — while `stream_output` (`src/lib/cmd.rs`,
`src/main.rs`) and `python` (`src/python.rs`) map exit statuses as the
claim states, including the failed-wait case. -/
theorem C1_uv_exit_mapping_inverted :
    uvOutcome (some 0) = ExitOutcome.failure ∧
    uvOutcome (some 1) = ExitOutcome.success ∧
    streamOutputOutcome (some 0) = ExitOutcome.success ∧
    streamOutputOutcome (some 1) = ExitOutcome.failure ∧
    streamOutputOutcome none = ExitOutcome.failure ∧
    pythonOutcome (some 0) = ExitOutcome.success ∧
    pythonOutcome (some 1) = ExitOutcome.failure ∧
    pythonOutcome none = ExitOutcome.failure := by
  decide

/-- C10: in the output relay of `stream_output`, an erroneous `lines()`
item (I/O failure or invalid UTF-8) anywhere in a channel is written
to neither parent stream and produces no report, and the relay of that
channel continues with the subsequent items exactly as if the
erroneous one were absent. -/
theorem C10_relay_drops_read_errors (xs ys : List ReadResult) (msg : Str) :
    streamStdout (xs ++ ReadResult.err msg :: ys) = streamStdout xs ++ streamStdout ys ∧
    streamStderr (xs ++ ReadResult.err msg :: ys) = streamStderr xs ++ streamStderr ys := by
  constructor <;>
    simp [streamStdout, streamStderr, List.filterMap_append, List.filterMap_cons]

/-- A string is always a substring of an existing value extended with
a separator and the string itself. -/
theorem strContains_append_sep_self (v d : Str) :
    strContains (v ++ ':' :: d) d = true := by
  simp only [strContains, decide_eq_true_eq]
  exact ⟨v ++ [':'], [], by simp⟩

/-- Every string is a substring of itself. -/
theorem strContains_self (d : Str) : strContains d d = true := by
  simp only [strContains, decide_eq_true_eq]
  exact ⟨[], [], by simp⟩

/-- C9: the path-injection step is idempotent — applying
`append_pwd_to_pythonpath` to the value it itself produced leaves that
value unchanged, because after one application the directory string is
a substring of the variable's value and the `contains` guard then
suppresses any further append, so the directory is never duplicated. -/
theorem C9_pythonpath_step_idempotent (dirExists : Bool) (dirStr v : Str) :
    pythonpathAfterStep dirExists dirStr (pythonpathAfterStep dirExists dirStr v)
      = pythonpathAfterStep dirExists dirStr v := by
  cases dirExists with
  | false => rfl
  | true =>
    by_cases h : strContains v dirStr = true
    · simp [pythonpathAfterStep, append_pwd_to_pythonpath, h]
    · have hafter : pythonpathAfterStep true dirStr v
          = (if v = [] then dirStr else v ++ ':' :: dirStr) := by
        simp [pythonpathAfterStep, append_pwd_to_pythonpath, h, List.lookup]
      have hc : strContains (if v = [] then dirStr else v ++ ':' :: dirStr) dirStr = true := by
        by_cases hv : v = []
        · simpa [hv] using strContains_self dirStr
        · simpa [hv] using strContains_append_sep_self v dirStr
      rw [hafter]
      simp [pythonpathAfterStep, append_pwd_to_pythonpath, hc, hafter]

/-- On a string with no `'='`, `splitAtFirstEq` finds nothing. -/
theorem splitAtFirstEq_of_not_mem : ∀ s : Str, '=' ∉ s → splitAtFirstEq s = none
  | [], _ => rfl
  | c :: rest, h => by
    have hc : ¬ c = '=' := fun hcc => h (by simp [hcc])
    have hrest : '=' ∉ rest := fun hm => h (List.mem_cons_of_mem _ hm)
    simp [splitAtFirstEq, hc, splitAtFirstEq_of_not_mem rest hrest]

/-- On a string containing `'='`, `splitAtFirstEq` yields the text
before the first `'='` and the text after it (with any further `'='`
characters kept in the second component). -/
theorem splitAtFirstEq_of_mem : ∀ s : Str, '=' ∈ s →
    splitAtFirstEq s = some (s.takeWhile (· != '='), (s.dropWhile (· != '=')).tail)
  | c :: rest, h => by
    by_cases hc : c = '='
    · subst hc
      simp [splitAtFirstEq, List.takeWhile_cons, List.dropWhile_cons]
    · have hmem : '=' ∈ rest := by
        rcases List.mem_cons.mp h with h1 | h2
        · exact absurd h1.symm hc
        · exact h2
      have hne : (c != '=') = true := by simpa using hc
      simp [splitAtFirstEq, hc, splitAtFirstEq_of_mem rest hmem,
        List.takeWhile_cons, List.dropWhile_cons, hne]

/-- Adding one more override string at the end of the list makes
`set_additional_env_var` process the previous list and then apply the
loop body once to the new string. -/
theorem set_additional_env_var_append (dirExists : Bool) (dirStr inherited : Str)
    (pre : List Str) (s : Str) (quiet : Bool) :
    set_additional_env_var dirExists dirStr inherited (pre ++ [s]) quiet
      = ((processOverride quiet (set_additional_env_var dirExists dirStr inherited pre quiet).1 s).1,
         (set_additional_env_var dirExists dirStr inherited pre quiet).2 ++
           (processOverride quiet (set_additional_env_var dirExists dirStr inherited pre quiet).1 s).2) := by
  simp [set_additional_env_var, List.foldl_append]

/-- C3: an override string containing `'='` is split at its first
`'='` and the pair (text before, text after — embedded `'='` kept) is
inserted into the composed map; an override string with no `'='`
leaves the composed map exactly as it was after the preceding
overrides, and when `quiet` is unset the malformed string is reported
with a warning. -/
theorem C3_override_parsing (dirExists : Bool) (dirStr inherited : Str)
    (pre : List Str) (m : EnvMap) (s : Str) (quiet : Bool) :
    ('=' ∈ s →
      (processOverride quiet m s).1
        = insertEnv m (s.takeWhile (· != '=')) ((s.dropWhile (· != '=')).tail)) ∧
    ('=' ∉ s →
      (set_additional_env_var dirExists dirStr inherited (pre ++ [s]) quiet).1
        = (set_additional_env_var dirExists dirStr inherited pre quiet).1 ∧
      (quiet = false →
        Out.warnMalformed s ∈ (set_additional_env_var dirExists dirStr inherited (pre ++ [s]) quiet).2)) := by
  constructor
  · intro h
    simp [processOverride, splitAtFirstEq_of_mem s h]
  · intro h
    constructor
    · rw [set_additional_env_var_append]
      simp [processOverride, splitAtFirstEq_of_not_mem s h]
    · intro hq
      rw [set_additional_env_var_append]
      simp [processOverride, splitAtFirstEq_of_not_mem s h, hq]

/-- Witness for C3 at concrete inputs: `"A=1"` is split into key `A`
and value `1` and inserted; `"B"` has no `'='`, changes nothing in the
composed map, and is reported. -/
theorem C3_override_parsing_witness :
    ('=' ∈ ['A', '=', '1'] ∧
      (processOverride false [] ['A', '=', '1']).1 = insertEnv [] ['A'] ['1']) ∧
    ('=' ∉ ['B'] ∧
      (set_additional_env_var true ['d'] [] [['B']] false).1
        = (set_additional_env_var true ['d'] [] [] false).1 ∧
      Out.warnMalformed ['B'] ∈ (set_additional_env_var true ['d'] [] [['B']] false).2) := by
  refine ⟨⟨by decide, ?_⟩, by decide, ?_, ?_⟩
  · have h := (C3_override_parsing true ['d'] [] [] [] ['A', '=', '1'] false).1 (by decide)
    simpa using h
  · have h := ((C3_override_parsing true ['d'] [] [] [] ['B'] false).2 (by decide)).1
    simpa using h
  · have h := ((C3_override_parsing true ['d'] [] [] [] ['B'] false).2 (by decide)).2 rfl
    simpa using h

/-- With `clean` disabled, `use_uv_venv` returns `files_to_clean`
untouched whenever it succeeds. -/
theorem use_uv_venv_clean_false (uvInit uvVenv uvAdd : ToolRun) (fs : FS)
    (currentDir : FsPath) (files : List FsPath) :
    (use_uv_venv uvInit uvVenv uvAdd fs currentDir false files).elim files (fun r => r.2.1)
      = files := by
  unfold use_uv_venv
  cases h1 : uvInit fs currentDir with
  | none => rfl
  | some fs1 =>
    simp only [Option.bind_some, Option.bind_eq_bind]
    cases h2 : (if fs1 (currentDir ++ [".venv"]) = true then some fs1
        else uvVenv fs1 (currentDir ++ [".venv"])) with
    | none => simp [h2]
    | some fs2 =>
      simp only [h2, Option.some_bind]
      cases h3 : (if fs2 (currentDir ++ ["requirements.txt"]) = false then some fs2
          else uvAdd fs2 (currentDir ++ [".venv"])) with
      | none => simp [h3]
      | some fs3 => simp [h3]

/-- C4: with the `clean` flag disabled, no resolution branch ever adds
a path to the cleanup manifest — `get_venv_path` returns
`files_to_clean` unchanged whichever branch runs (so the manifest that
started empty in `main` is still empty at the end of the run), and the
`venv`/`use_uv_venv` resolver of `src/lib/uv.rs` likewise ends with an
empty manifest. -/
theorem C4_clean_disabled_manifest_unchanged (fs fs2 : FS) (venv runtimePath : FsPath)
    (files : List FsPath) (uvInit uvVenv uvAdd : ToolRun)
    (canon : FsPath → Option FsPath) (currentDir arg : FsPath) :
    (get_venv_path fs venv runtimePath false files).2 = files ∧
    (get_venv_path fs venv runtimePath false []).2 = [] ∧
    (use_uv_venv uvInit uvVenv uvAdd fs2 currentDir false files).elim files (fun r => r.2.1)
      = files ∧
    (venvResolve uvInit uvVenv uvAdd canon fs2 currentDir arg false).elim [] (fun r => r.2)
      = [] := by
  refine ⟨?_, ?_, use_uv_venv_clean_false uvInit uvVenv uvAdd fs2 currentDir files, ?_⟩
  · unfold get_venv_path
    cases h : validate_venv fs venv with
    | some v => rfl
    | none =>
      cases h2 : [runtimePath ++ ["venv"], runtimePath ++ [".venv"]].find? (fun p => fs p) with
      | some p => simp [h2]
      | none => simp [h2]
  · unfold get_venv_path
    cases h : validate_venv fs venv with
    | some v => rfl
    | none =>
      cases h2 : [runtimePath ++ ["venv"], runtimePath ++ [".venv"]].find? (fun p => fs p) with
      | some p => simp [h2]
      | none => simp [h2]
  · unfold venvResolve
    by_cases h : fs2 arg = false
    · simp only [h, if_true, eq_self_iff_true]
      by_cases hd : arg = [".venv"] ∧ fs2 (currentDir ++ ["venv"]) = true
      · simp [hd]
      · simp only [hd, if_false]
        have huv := use_uv_venv_clean_false uvInit uvVenv uvAdd fs2 currentDir []
        cases h3 : use_uv_venv uvInit uvVenv uvAdd fs2 currentDir false [] with
        | none => simp [h3]
        | some r =>
          rw [h3] at huv
          simp only [Option.elim] at huv
          simp [h3, huv]
    · simp only [h, if_false]
      cases h4 : canon arg with
      | none => simp [h4]
      | some a => simp [h4]

/-- C5: evaluation of `use_uv_venv` at the scenario of the claim —
`clean` enabled, no `.venv` (and no `pyproject.toml`, `uv.lock` or
`requirements.txt`) pre-existing, provisioning succeeds and creates
`proj/.venv` and `proj/pyproject.toml`.  Because the `if
!path.exists()` guards of the clean block run only after provisioning,
the freshly created `.venv` (and `pyproject.toml`) are *not* recorded:
the manifest ends as `[proj/uv.lock]`, so the provisioned environment
directory is never removed, although `.venv` did not exist initially. -/
theorem C5_provisioned_venv_not_recorded :
    demoFs0 ["proj", ".venv"] = false ∧
    (use_uv_venv demoUvInit demoUvVenv demoUvAdd demoFs0 ["proj"] true []).map
        (fun r => (r.1, r.2.1))
      = some (["proj", ".venv"], [["proj", "uv.lock"]]) ∧
    ["proj", ".venv"] ∉ [["proj", "uv.lock"]] := by
  refine ⟨rfl, ?_, by decide⟩
  decide

/-- C2 counterexample: the supplied venv `sv` is invalid, the
conventional directory `rt/venv` exists but contains no
`bin/python`; the resolver nevertheless returns `rt/venv`, whose
derived executable does not exist on disk — an environment with a
non-existing executable is passed on to spawning. -/
theorem C2_discovered_venv_not_validated :
    get_venv_path fsDiscoveredBroken ["sv"] ["rt"] false [] = (["rt", "venv"], []) ∧
    fsDiscoveredBroken (get_python_exec_path ["rt", "venv"]) = false := by
  constructor
  · decide
  · rfl

/-- C2 amended: only the caller-supplied branch checks the derived
executable — whenever the supplied venv validates, the returned
directory is the supplied one, its executable exists on disk, and the
manifest is untouched. -/
theorem C2_caller_supplied_validated (fs : FS) (venv runtimePath v : FsPath)
    (clean : Bool) (files : List FsPath)
    (h : validate_venv fs venv = some v) :
    fs (get_python_exec_path v) = true ∧
    get_venv_path fs venv runtimePath clean files = (v, files) := by
  have hv : v = venv ∧ fs venv = true ∧ fs (get_python_exec_path venv) = true := by
    unfold validate_venv at h
    by_cases h1 : fs venv = false
    · simp [h1] at h
    · by_cases h2 : fs (get_python_exec_path venv) = false
      · simp [h1, h2] at h
      · simp [h1, h2] at h
        exact ⟨h.symm, by simpa using h1, by simpa using h2⟩
  obtain ⟨hveq, h1, h2⟩ := hv
  subst hveq
  refine ⟨h2, ?_⟩
  unfold get_venv_path
  rw [h]

/-- Witness for C2 amended at a concrete valid venv `v`. -/
theorem C2_caller_supplied_validated_witness :
    fsValidVenv (get_python_exec_path ["v"]) = true ∧
    get_venv_path fsValidVenv ["v"] ["rt"] true [] = (["v"], []) :=
  C2_caller_supplied_validated fsValidVenv ["v"] ["rt"] ["v"] true [] (by decide)

/-- C6: when the caller-supplied environment directory exists and
holds the runtime executable at the platform-conventional subpath,
both resolvers return that directory and append nothing to the
cleanup manifest, even with `clean` enabled: `get_venv_path` returns
the supplied path with `files_to_clean` untouched, and `venv` of
`src/lib/uv.rs` returns its canonicalised form with an empty
manifest. -/
theorem C6_valid_supplied_venv_frame (fs fs2 : FS) (venv runtimePath : FsPath)
    (clean : Bool) (files : List FsPath) (uvInit uvVenv uvAdd : ToolRun)
    (canon : FsPath → Option FsPath) (currentDir arg a : FsPath) (clean2 : Bool)
    (h1 : fs venv = true) (h2 : fs (get_python_exec_path venv) = true)
    (h3 : fs2 arg = true) (_h4 : fs2 (get_python_exec_path arg) = true)
    (h5 : canon arg = some a) :
    get_venv_path fs venv runtimePath clean files = (venv, files) ∧
    venvResolve uvInit uvVenv uvAdd canon fs2 currentDir arg clean2 = some (a, []) := by
  constructor
  · have hval : validate_venv fs venv = some venv := by
      unfold validate_venv
      simp [h1, h2]
    unfold get_venv_path
    rw [hval]
  · unfold venvResolve
    simp [h3, h5]

/-- Witness for C6 at a concrete valid venv with identity
canonicalisation. -/
theorem C6_valid_supplied_venv_frame_witness :
    get_venv_path fsValidVenv ["v"] ["rt"] true [["x"]] = (["v"], [["x"]]) ∧
    venvResolve demoUvInit demoUvVenv demoUvAdd (fun p => some p) fsValidVenv ["rt"] ["v"] true
      = some (["v"], []) :=
  C6_valid_supplied_venv_frame fsValidVenv fsValidVenv ["v"] ["rt"] true [["x"]]
    demoUvInit demoUvVenv demoUvAdd (fun p => some p) ["rt"] ["v"] ["v"] true
    (by decide) (by decide) (by decide) (by decide) rfl

/-- C7 counterexample: with uv available and neither `pyproject.toml`
nor `requirements.txt` existing, the dependency-preparation block of
`src/python.rs` spawns no install subprocess but does print the
`No pyproject.toml or requirements.txt found` warning — the absence of
both files is not silent there. -/
theorem C7_python_variant_warns :
    pythonPrepareDeps (fun _ => true) true demoFs0 ["rt"] = ([], [Out.warnNoDeps], true) ∧
    ([Out.warnNoDeps] : List Out) ≠ [] := by
  decide

/-- C7 amended: when neither `pyproject.toml` nor `requirements.txt`
exists at the project root, no install subprocess is invoked and the
run continues; the `src/main.rs` block prints nothing, while the
`src/python.rs` variant prints the no-dependencies warning whenever uv
is available (regardless of `quiet`). -/
theorem C7_no_dep_files_no_install (ok : InstallCmd → Bool) (uvAvailable : Bool)
    (fs : FS) (runtimePath : FsPath)
    (h1 : fs (runtimePath ++ ["pyproject.toml"]) = false)
    (h2 : fs (runtimePath ++ ["requirements.txt"]) = false) :
    mainPrepareDeps ok uvAvailable fs runtimePath = ([], [], true) ∧
    pythonPrepareDeps ok uvAvailable fs runtimePath
      = ([], if uvAvailable then [Out.warnNoDeps] else [], true) := by
  cases uvAvailable <;> simp [mainPrepareDeps, pythonPrepareDeps, h1, h2]

/-- Witness for C7 amended on the empty filesystem with uv available. -/
theorem C7_no_dep_files_no_install_witness :
    mainPrepareDeps (fun _ => true) true demoFs0 ["rt"] = ([], [], true) ∧
    pythonPrepareDeps (fun _ => true) true demoFs0 ["rt"]
      = ([], if true then [Out.warnNoDeps] else [], true) :=
  C7_no_dep_files_no_install (fun _ => true) true demoFs0 ["rt"] rfl rfl

/-- The cleanup loop never appends to its output component: whatever
it starts with is what it ends with, removal failures included. -/
theorem cleanup_foldl_outs (isDir : FsPath → Bool) :
    ∀ (paths : List FsPath) (fs : FS) (outs : List Out),
      (paths.foldl (fun st p => ((removePath isDir st.1 p).1, st.2)) (fs, outs)).2 = outs
  | [], _, _ => rfl
  | p :: ps, fs, outs => cleanup_foldl_outs isDir ps (removePath isDir fs p).1 outs

/-- C8 counterexample: removing the non-existing path `gone` fails
(`remove_file` errors), yet the post-run tail prints nothing at all —
the failure is not reported to the user, contrary to the claim. -/
theorem C8_removal_failure_not_reported :
    (removePath (fun _ => false) demoFs0 ["gone"]).2 = false ∧
    (finishRun (fun _ => false) ExitOutcome.success true demoFs0 [["gone"]]).2.2
      = ([] : List Out) := by
  constructor
  · rfl
  · rfl

/-- C8 amended: a failure to remove a manifest path after the child
has exited is silently ignored — nothing is printed by the cleanup
loop on any path — and the program's exit outcome remains exactly the
outcome derived from the child process. -/
theorem C8_cleanup_silent_and_outcome_preserved (isDir : FsPath → Bool)
    (result : ExitOutcome) (clean : Bool) (fs : FS) (files : List FsPath) :
    (finishRun isDir result clean fs files).1 = result ∧
    (finishRun isDir result clean fs files).2.2 = [] := by
  cases clean <;>
    simp [finishRun, cleanupPaths, cleanup_foldl_outs]
